import Mathlib

/-!
Shallow embedding of the job-orchestration core of the Vizart frontend
(`frontend/src/components/ModeSelector.tsx` second unit: the `useProcessing`
hook; `frontend/src/types/index.ts`; `frontend/src/components/ImageUpload.tsx`;
`frontend/src/hooks/useImageUpload.ts`; `frontend/src/app/page.tsx`).

React `useState` cells are modelled as fields of an explicit state record;
each handler becomes a pure function from the pre-state (plus the outcome of
any awaited transport call, which is a free parameter) to the post-state.
JavaScript numbers carried by job snapshots are modelled as `Int`
(the spec declares `progress` an integer); the fractional accumulator of
`simulateProgress` is modelled as `Rat`. JavaScript string truthiness
(`""` is falsy) and `a || b` defaulting are modelled explicitly.
-/

namespace Vizart

/-- Job status union of `ProcessingJob.status` in `frontend/src/types/index.ts`:
`pending | processing | completed | failed`. (No `cancelled` literal exists in
the type.) -/
inductive JobStatus where
  | pending
  | processing
  | completed
  | failed
deriving DecidableEq, Repr

/-- Optional descriptive metadata of an extracted garment
(`ExtractedGarment.metadata` in `frontend/src/types/index.ts`). -/
structure GarmentMetadata where
  color : Option String
  pattern : Option String
  style : Option String
deriving DecidableEq, Repr

/-- One extracted garment record (`ExtractedGarment` in
`frontend/src/types/index.ts`); the classification tag is kept as a string
(`upper`, `lower` or `full`). -/
structure ExtractedGarment where
  id : String
  garmentType : String
  imageUrl : String
  maskUrl : Option String
  confidence : Rat
  metadata : Option GarmentMetadata
deriving DecidableEq, Repr

/-- Payload of a completed job (`JobResult` in `frontend/src/types/index.ts`). -/
structure JobResult where
  imageUrl : Option String
  extractedGarments : Option (List ExtractedGarment)
  processingTime : Option Rat
deriving DecidableEq, Repr

/-- One job snapshot (`ProcessingJob` in `frontend/src/types/index.ts`).
Timestamps are epoch numbers. -/
structure ProcessingJob where
  id : String
  status : JobStatus
  progress : Int
  message : String
  createdAt : Nat
  completedAt : Option Nat
  result : Option JobResult
deriving DecidableEq, Repr

/-- The observable state of the `useProcessing` hook: its five `useState`
cells plus the `pollingRef` interval handle (a timer id when set). -/
structure ProcState where
  isProcessing : Bool
  progress : Int
  message : String
  job : Option ProcessingJob
  error : Option String
  pollingTimer : Option Nat
deriving DecidableEq, Repr

/-- JavaScript truthiness of an optional string: `undefined`, `null` and the
empty string are falsy. -/
def strTruthy : Option String → Bool
  | none => false
  | some s => !(s == "")

/-- JavaScript `a || b` for an optional string `a` with string default `b`:
`b` is used when `a` is absent or empty. -/
def orElseStr (a : Option String) (b : String) : String :=
  match a with
  | some s => if s == "" then b else s
  | none => b

/-- The guard of `updateJobStatus`:
`jobStatus.status === 'completed' || jobStatus.status === 'failed'`. -/
def isTerminalStatus (st : JobStatus) : Bool :=
  st == JobStatus.completed || st == JobStatus.failed

/-- The `updateJobStatus` callback of `useProcessing`
(`ModeSelector.tsx` second unit, lines 64-76): unconditionally stores the
snapshot and mirrors its progress and message; when the snapshot's status is
`completed` or `failed` it additionally sets `isProcessing` to `false` and
clears the polling interval handle. -/
def updateJobStatus (s : ProcState) (jobStatus : ProcessingJob) : ProcState :=
  let s1 : ProcState :=
    { s with
      job := some jobStatus
      progress := jobStatus.progress
      message := jobStatus.message }
  if isTerminalStatus jobStatus.status then
    { s1 with isProcessing := false, pollingTimer := none }
  else
    s1

/-- The `data` field of a submit response (`ApiResponse.data` holding the
`jobId`). -/
structure SubmitData where
  jobId : Option String
deriving DecidableEq, Repr

/-- Shape of `apiClient.submitTryOn` / `submitTryOff` responses
(`ApiResponse` in `frontend/src/types/index.ts`, as consumed by
`useProcessing`). -/
structure ApiResponse where
  success : Bool
  data : Option SubmitData
  error : Option String
deriving DecidableEq, Repr

/-- Outcome of awaiting a transport submit call: either a resolved response,
or a rejection carrying `some message` when the thrown value is a JavaScript
`Error` and `none` when it is a non-`Error` value. -/
inductive SubmitOutcome where
  | resp (r : ApiResponse)
  | thrown (msg : Option String)
deriving DecidableEq, Repr

/-- The optional chain `response.data?.jobId`. -/
def respJobId (r : ApiResponse) : Option String :=
  Option.bind r.data (fun d => d.jobId)

/-- The submit-failure guard of `startTryOn` / `startTryOff`:
`!response.success || !response.data?.jobId` (an empty-string job id is
falsy, hence a failure). -/
def submitGuardFails (r : ApiResponse) : Bool :=
  !r.success || !(strTruthy (respJobId r))

/-- Whether an awaited submit outcome takes the failure path of
`startTryOn` / `startTryOff` (a rejection, or a response failing the guard). -/
def submitRejected (o : SubmitOutcome) : Bool :=
  match o with
  | SubmitOutcome.thrown _ => true
  | SubmitOutcome.resp r => submitGuardFails r

/-- Initial message set by `startTryOn`. -/
def tryOnInitMsg : String := "Initializing try-on process..."

/-- Initial message set by `startTryOff`. -/
def tryOffInitMsg : String := "Initializing garment extraction..."

/-- Fallback error of the try-on submit guard. -/
def tryOnFailMsg : String := "Failed to submit try-on request"

/-- Fallback error of the try-off submit guard. -/
def tryOffFailMsg : String := "Failed to submit try-off request"

/-- Fallback error of the `catch` blocks of `startTryOn` / `startTryOff`
for a thrown non-`Error` value. -/
def startFailMsg : String := "Failed to start processing"

/-- The `startTryOn` handler of `useProcessing` (lines 78-107), up to the
point where the awaited submit call has settled. It first sets
`isProcessing := true`, `progress := 0`, the initializing message, and clears
`error`; then, on a rejected call or a response failing the guard, it stores
the error message and sets `isProcessing := false`; on success it starts
`pollJobStatus` (reported as the second component; later snapshot deliveries
are separate `updateJobStatus` events). Note that no field of the previous
state is consulted: there is no busy check, and `job` is never written. -/
def startTryOn (s : ProcState) (o : SubmitOutcome) : ProcState × Bool :=
  let s1 : ProcState :=
    { s with
      isProcessing := true
      progress := 0
      message := tryOnInitMsg
      error := none }
  match o with
  | SubmitOutcome.thrown m =>
      ({ s1 with error := some (Option.getD m startFailMsg), isProcessing := false }, false)
  | SubmitOutcome.resp r =>
      if submitGuardFails r then
        ({ s1 with error := some (orElseStr r.error tryOnFailMsg), isProcessing := false }, false)
      else
        (s1, true)

/-- The `startTryOff` handler of `useProcessing` (lines 109-138): identical to
`startTryOn` except for its message strings. -/
def startTryOff (s : ProcState) (o : SubmitOutcome) : ProcState × Bool :=
  let s1 : ProcState :=
    { s with
      isProcessing := true
      progress := 0
      message := tryOffInitMsg
      error := none }
  match o with
  | SubmitOutcome.thrown m =>
      ({ s1 with error := some (Option.getD m startFailMsg), isProcessing := false }, false)
  | SubmitOutcome.resp r =>
      if submitGuardFails r then
        ({ s1 with error := some (orElseStr r.error tryOffFailMsg), isProcessing := false }, false)
      else
        (s1, true)

/-- Outcome of awaiting `apiClient.cancelJob`: resolution, or a rejection
carrying `some message` for a thrown `Error` and `none` otherwise. -/
inductive CancelOutcome where
  | ok
  | thrown (msg : Option String)
deriving DecidableEq, Repr

/-- Fallback error of the `catch` block of `cancelProcessing`. -/
def cancelFailMsg : String := "Failed to cancel processing"

/-- The optional chain `job?.id` over the hook state. -/
def jobIdOf (s : ProcState) : Option String :=
  Option.map ProcessingJob.id s.job

/-- The `cancelProcessing` handler of `useProcessing` (lines 140-157): a
no-op when `job?.id` is falsy; otherwise it awaits `apiClient.cancelJob` and,
only when that call resolves, clears `isProcessing`, `progress`, `message`,
`job` and the interval handle; when the call rejects, the `catch` block sets
`error` and nothing else. -/
def cancelProcessing (s : ProcState) (o : CancelOutcome) : ProcState :=
  if !(strTruthy (jobIdOf s)) then s
  else
    match o with
    | CancelOutcome.ok =>
        { s with
          isProcessing := false
          progress := 0
          message := ""
          job := none
          pollingTimer := none }
    | CancelOutcome.thrown m =>
        { s with error := some (Option.getD m cancelFailMsg) }

/-- The `reset` handler of `useProcessing` (lines 159-170): unconditionally
clears every cell and the interval handle. -/
def reset (_s : ProcState) : ProcState :=
  { isProcessing := false
    progress := 0
    message := ""
    job := none
    error := none
    pollingTimer := none }

/-- The all-clear hook state (every cell at its initial value). -/
def idleState : ProcState :=
  { isProcessing := false
    progress := 0
    message := ""
    job := none
    error := none
    pollingTimer := none }

/-- A JavaScript `File` as consumed by the upload code: its MIME `type`, a
`name`, and the data URL the `FileReader` would produce for it. -/
structure JsFile where
  name : String
  type : String
  dataUrl : String
deriving DecidableEq, Repr

/-- The local state of the `ImageUpload` component
(`frontend/src/components/ImageUpload.tsx`): its two `useState` cells. -/
structure UploadCompState where
  dragActive : Bool
  uploadedImage : Option String
deriving DecidableEq, Repr

/-- MIME prefix tested by `handleFile`. -/
def mimeImageSlash : String := "image/"

/-- JavaScript `s.startsWith(p)`, modelled on the character sequences of the
two strings. -/
def jsStartsWith (s p : String) : Bool :=
  List.isPrefixOf p.data s.data

/-- The `handleFile` helper of `ImageUpload` (lines 48-57): when the file's
MIME type starts with `image/`, the reader stores its data URL in
`uploadedImage` and the `onImageUpload` callback receives the file (returned
as the second component); otherwise nothing happens. -/
def handleFile (s : UploadCompState) (f : JsFile) : UploadCompState × Option JsFile :=
  if jsStartsWith f.type mimeImageSlash then
    ({ s with uploadedImage := some f.dataUrl }, some f)
  else
    (s, none)

/-- Shape returned by `validateImageFile` as consumed by `uploadImage` in
`frontend/src/hooks/useImageUpload.ts` (the validator itself lives in
`lib/utils` and is treated as an external input). -/
structure ValidationResult where
  isValid : Bool
  error : Option String
deriving DecidableEq, Repr

/-- Outcome of awaiting `createImagePreview`: a data URL, or a rejection
carrying `some message` for a thrown `Error` and `none` otherwise. -/
inductive PreviewOutcome where
  | ok (url : String)
  | thrown (msg : Option String)
deriving DecidableEq, Repr

/-- The observable state of the `useImageUpload` hook: its four `useState`
cells. -/
structure ImageUploadState where
  image : Option JsFile
  preview : Option String
  isUploading : Bool
  error : Option String
deriving DecidableEq, Repr

/-- Fallback error of `uploadImage` for a falsy `validation.error`. -/
def invalidFileMsg : String := "Invalid file"

/-- Fallback error of the `catch` block of `uploadImage` for a thrown
non-`Error` value. -/
def uploadFailMsg : String := "Upload failed"

/-- The `uploadImage` handler of `useImageUpload` (lines 19-41): clears
`error`, sets `isUploading`; on failed validation stores
`validation.error || 'Invalid file'` and returns early; otherwise awaits the
preview, storing the file and its URL on resolution or the thrown message in
`error` on rejection; the `finally` block always clears `isUploading`. -/
def uploadImage (s : ImageUploadState) (f : JsFile) (v : ValidationResult)
    (p : PreviewOutcome) : ImageUploadState :=
  let s1 : ImageUploadState := { s with error := none, isUploading := true }
  let s2 : ImageUploadState :=
    if !v.isValid then
      { s1 with error := some (orElseStr v.error invalidFileMsg) }
    else
      match p with
      | PreviewOutcome.ok url => { s1 with image := some f, preview := some url }
      | PreviewOutcome.thrown m => { s1 with error := some (Option.getD m uploadFailMsg) }
  { s2 with isUploading := false }

/-- The four-element `messages` array of `simulateProgress`
(`frontend/src/app/page.tsx`, lines 102-126). -/
def progressMsgs : List String :=
  ["Analyzing image...", "Detecting pose...", "Processing garments...", "Generating result..."]

/-- One tick of the `simulateProgress` interval acting on the accumulated
progress `p` with the tick's random increment `r` (`Math.random() * 30` in
the source): `progress += r; if (progress > 90) progress = 90`. -/
def tickProgress (p r : Rat) : Rat :=
  if p + r > 90 then 90 else p + r

/-- JavaScript array indexing with an integer index: out-of-range (including
negative) access yields `undefined`. -/
def jsIndex (l : List String) (i : Int) : Option String :=
  if 0 ≤ i then List.get? l (Int.toNat i) else none

/-- The message published by a `simulateProgress` tick at accumulated
progress `p`: index `Math.floor(progress / 25)` clamped by
`Math.min(messageIndex, messages.length - 1)`. -/
def publishedMessage (p : Rat) : Option String :=
  jsIndex progressMsgs (min (Int.floor (p / 25)) ((progressMsgs.length : Int) - 1))

/-- The progress published by a `simulateProgress` tick:
`Math.min(progress, 100)`. -/
def publishedProgress (p : Rat) : Rat := min p 100

/-- Accumulated progress after running `simulateProgress` ticks with the
given random increments, starting from the initial `let progress = 0`. -/
def runTicks (rs : List Rat) : Rat := List.foldl tickProgress 0 rs

/-- The sequence of observable `progress` values produced by applying a list
of snapshots to the hook state in order (one entry per applied snapshot). -/
def progressTrace (s : ProcState) : List ProcessingJob → List Int
  | [] => []
  | j :: js => (updateJobStatus s j).progress :: progressTrace (updateJobStatus s j) js

/-- Fixture: id of a first submitted job. -/
def jobOneId : String := "job-1"

/-- Fixture: id of a second submitted job. -/
def jobTwoId : String := "job-2"

/-- Fixture: a mid-processing message. -/
def garmentsMsg : String := "Processing garments..."

/-- Fixture: a completion message. -/
def doneMsg : String := "Processing complete!"

/-- Fixture: another mid-processing message. -/
def poseMsg : String := "Detecting pose..."

/-- Fixture: a transport failure message. -/
def netDownMsg : String := "network down"

/-- Fixture: a server-side error message. -/
def serverErrMsg : String := "Server unavailable"

/-- Fixture: an in-flight job at 42 percent. -/
def busyJob : ProcessingJob :=
  { id := jobOneId
    status := JobStatus.processing
    progress := 42
    message := garmentsMsg
    createdAt := 0
    completedAt := none
    result := none }

/-- Fixture: hook state with `busyJob` active and a live interval handle. -/
def busyState : ProcState :=
  { isProcessing := true
    progress := 42
    message := garmentsMsg
    job := some busyJob
    error := none
    pollingTimer := some 7 }

/-- Fixture: a successful submit response carrying a job id. -/
def okResp : ApiResponse :=
  { success := true
    data := some { jobId := some jobTwoId }
    error := none }

/-- Fixture: a failed submit response. -/
def failRespA : ApiResponse :=
  { success := false
    data := none
    error := some serverErrMsg }

/-- Fixture: a completed job snapshot. -/
def completedJob : ProcessingJob :=
  { id := jobOneId
    status := JobStatus.completed
    progress := 100
    message := doneMsg
    createdAt := 0
    completedAt := some 3
    result := none }

/-- Fixture: hook state after `completedJob` settled (polling stopped). -/
def settledState : ProcState :=
  { isProcessing := false
    progress := 100
    message := doneMsg
    job := some completedJob
    error := none
    pollingTimer := none }

/-- Fixture: a late non-terminal snapshot for the same job at 55 percent. -/
def lateSnap : ProcessingJob :=
  { id := jobOneId
    status := JobStatus.processing
    progress := 55
    message := poseMsg
    createdAt := 0
    completedAt := none
    result := none }

/-- Fixture: a non-terminal snapshot at 50 percent. -/
def snapHigh : ProcessingJob :=
  { id := jobOneId
    status := JobStatus.processing
    progress := 50
    message := garmentsMsg
    createdAt := 0
    completedAt := none
    result := none }

/-- Fixture: a non-terminal snapshot at 10 percent. -/
def snapLow : ProcessingJob :=
  { id := jobOneId
    status := JobStatus.processing
    progress := 10
    message := poseMsg
    createdAt := 0
    completedAt := none
    result := none }

/-- Fixture: a non-image file. -/
def pdfFile : JsFile :=
  { name := "resume.pdf"
    type := "application/pdf"
    dataUrl := "data:application/pdf;base64,AAAA" }

/-- Fixture: an image upload hook state holding a previous image. -/
def heldUploadState : ImageUploadState :=
  { image := some { name := "old.png", type := "image/png", dataUrl := "data:image/png;base64,BBBB" }
    preview := some "data:image/png;base64,BBBB"
    isUploading := false
    error := none }

/-- Fixture: a failed validation result. -/
def invalidValidation : ValidationResult :=
  { isValid := false
    error := some "File too large" }

/-- Fixture: two tick increments for `simulateProgress`. -/
def ticksA : List Rat := [20, 50]

/-- Fixture: the `ImageUpload` component state before any upload. -/
def emptyUploadComp : UploadCompState :=
  { dragActive := false
    uploadedImage := none }

/-- Fixture: a preview data URL. -/
def previewUrlA : String := "data:image/jpeg;base64,CCCC"

/-!
Helper lemmas shared by the claim theorems below.
-/

/-- Applying a snapshot always mirrors its `progress` into the hook state. -/
theorem updateJobStatus_progress_eq (s : ProcState) (j : ProcessingJob) :
    (updateJobStatus s j).progress = j.progress := by
  unfold updateJobStatus
  split <;> rfl

/-- Applying a snapshot always stores it in the `job` cell. -/
theorem updateJobStatus_job_eq (s : ProcState) (j : ProcessingJob) :
    (updateJobStatus s j).job = some j := by
  unfold updateJobStatus
  split <;> rfl

/-- Applying a snapshot always mirrors its `message` into the hook state. -/
theorem updateJobStatus_message_eq (s : ProcState) (j : ProcessingJob) :
    (updateJobStatus s j).message = j.message := by
  unfold updateJobStatus
  split <;> rfl

/-- The observable progress trace is exactly the progress carried by the
snapshots, in order. -/
theorem progressTrace_eq_map (s : ProcState) (js : List ProcessingJob) :
    progressTrace s js = List.map (fun j => j.progress) js := by
  induction js generalizing s with
  | nil => rfl
  | cons j js ih => simp [progressTrace, ih, updateJobStatus_progress_eq]

/-- One `simulateProgress` tick keeps the accumulated progress in `[0, 90]`
when the increment is nonnegative. -/
theorem tickProgress_bounds (p r : Rat) (h0 : 0 ≤ p) (hr : 0 ≤ r) :
    0 ≤ tickProgress p r ∧ tickProgress p r ≤ 90 := by
  unfold tickProgress
  split_ifs with h
  · norm_num
  · exact ⟨by positivity, by linarith [not_lt.mp h]⟩

/-- Folding `simulateProgress` ticks over nonnegative increments keeps the
accumulated progress in `[0, 90]`. -/
theorem runTicks_bounds_aux (rs : List Rat) :
    ∀ p : Rat, (∀ r ∈ rs, 0 ≤ r) → 0 ≤ p → p ≤ 90 →
      0 ≤ List.foldl tickProgress p rs ∧ List.foldl tickProgress p rs ≤ 90 := by
  induction rs with
  | nil => intro p _ h0 h90; exact ⟨h0, h90⟩
  | cons r rs ih =>
      intro p hall h0 h90
      have hr : 0 ≤ r := hall r (List.mem_cons_self r rs)
      have hb := tickProgress_bounds p r h0 hr
      exact ih (tickProgress p r) (fun x hx => hall x (List.mem_cons_of_mem r hx)) hb.1 hb.2

/-- At nonnegative accumulated progress the clamped message index always hits
the four-element message array. -/
theorem publishedMessage_isSome_of_nonneg (p : Rat) (h0 : 0 ≤ p) :
    (publishedMessage p).isSome = true := by
  unfold publishedMessage jsIndex
  have hf : (0:Int) ≤ Int.floor (p / 25) := Int.floor_nonneg.mpr (by positivity)
  have hmin : (0:Int) ≤ min (Int.floor (p / 25)) ((progressMsgs.length : Int) - 1) := by
    simp [progressMsgs]
    omega
  rw [if_pos hmin]
  have hlt : (min (Int.floor (p / 25)) ((progressMsgs.length : Int) - 1)).toNat <
      progressMsgs.length := by
    simp [progressMsgs]
    omega
  rw [List.get?_eq_get hlt]
  rfl

/-!
Claim theorems.
-/

/-- Claim C1, counterexample: a `startTryOn` call made while a job is active
(`isProcessing = true`) is not rejected — polling for the new submission
starts, and the observable progress and message of the existing job are
overwritten. -/
theorem startTryOn_busy_not_rejected :
    busyState.isProcessing = true ∧
    (startTryOn busyState (SubmitOutcome.resp okResp)).2 = true ∧
    (startTryOn busyState (SubmitOutcome.resp okResp)).1.progress ≠ busyState.progress ∧
    (startTryOn busyState (SubmitOutcome.resp okResp)).1.message ≠ busyState.message := by
  decide

/-- Claim C1, amended: `startTryOn` / `startTryOff` perform no busy check; a
call made while `isProcessing` is `true` proceeds exactly as from idle — it
resets progress to `0`, replaces the message with the initializing text,
clears the error and, on submit success, starts polling; only the stored
`job` cell is left untouched. -/
theorem start_while_busy_overwrites (s : ProcState) (r : ApiResponse)
    (_hbusy : s.isProcessing = true) (hok : submitGuardFails r = false) :
    ((startTryOn s (SubmitOutcome.resp r)).2 = true ∧
     (startTryOn s (SubmitOutcome.resp r)).1.progress = 0 ∧
     (startTryOn s (SubmitOutcome.resp r)).1.message = tryOnInitMsg ∧
     (startTryOn s (SubmitOutcome.resp r)).1.error = none ∧
     (startTryOn s (SubmitOutcome.resp r)).1.job = s.job) ∧
    ((startTryOff s (SubmitOutcome.resp r)).2 = true ∧
     (startTryOff s (SubmitOutcome.resp r)).1.progress = 0 ∧
     (startTryOff s (SubmitOutcome.resp r)).1.message = tryOffInitMsg ∧
     (startTryOff s (SubmitOutcome.resp r)).1.error = none ∧
     (startTryOff s (SubmitOutcome.resp r)).1.job = s.job) := by
  simp [startTryOn, startTryOff, hok]

/-- Claim C1, witness for the amended theorem at the busy fixture state. -/
theorem start_while_busy_overwrites_witness :
    (busyState.isProcessing = true ∧ submitGuardFails okResp = false) ∧
    (((startTryOn busyState (SubmitOutcome.resp okResp)).2 = true ∧
      (startTryOn busyState (SubmitOutcome.resp okResp)).1.progress = 0 ∧
      (startTryOn busyState (SubmitOutcome.resp okResp)).1.message = tryOnInitMsg ∧
      (startTryOn busyState (SubmitOutcome.resp okResp)).1.error = none ∧
      (startTryOn busyState (SubmitOutcome.resp okResp)).1.job = busyState.job) ∧
     ((startTryOff busyState (SubmitOutcome.resp okResp)).2 = true ∧
      (startTryOff busyState (SubmitOutcome.resp okResp)).1.progress = 0 ∧
      (startTryOff busyState (SubmitOutcome.resp okResp)).1.message = tryOffInitMsg ∧
      (startTryOff busyState (SubmitOutcome.resp okResp)).1.error = none ∧
      (startTryOff busyState (SubmitOutcome.resp okResp)).1.job = busyState.job)) :=
  ⟨⟨by decide, by decide⟩,
   start_while_busy_overwrites busyState okResp (by decide) (by decide)⟩

/-- Claim C2, counterexample: after the job has settled (`completed` snapshot
applied, polling stopped), a late snapshot still mutates the observable
state — progress and message are overwritten, so stale results are not
discarded and a terminal job is mutated. -/
theorem late_snapshot_mutates_settled_state :
    isTerminalStatus completedJob.status = true ∧
    settledState.job = some completedJob ∧
    settledState.pollingTimer = none ∧
    updateJobStatus settledState lateSnap ≠ settledState ∧
    (updateJobStatus settledState lateSnap).progress = 55 ∧
    (updateJobStatus settledState lateSnap).message = poseMsg := by
  decide

/-- Claim C2, amended: `updateJobStatus` applies every delivered snapshot
unconditionally — it stores the snapshot and mirrors its progress and message
into the hook state regardless of any earlier cancellation or terminal
status; no staleness check exists. -/
theorem updateJobStatus_always_applies (s : ProcState) (j : ProcessingJob) :
    (updateJobStatus s j).job = some j ∧
    (updateJobStatus s j).progress = j.progress ∧
    (updateJobStatus s j).message = j.message :=
  ⟨updateJobStatus_job_eq s j, updateJobStatus_progress_eq s j,
   updateJobStatus_message_eq s j⟩

/-- Claim C3, counterexample: when the cancel network call rejects, the local
state is not forced to the cancelled shape — `isProcessing` stays `true`, the
job and the timer handle are retained, and only `error` is set. -/
theorem cancel_failure_keeps_active_state :
    busyState.isProcessing = true ∧
    (cancelProcessing busyState (CancelOutcome.thrown (some netDownMsg))).isProcessing = true ∧
    (cancelProcessing busyState (CancelOutcome.thrown (some netDownMsg))).job = some busyJob ∧
    (cancelProcessing busyState (CancelOutcome.thrown (some netDownMsg))).pollingTimer = some 7 ∧
    (cancelProcessing busyState (CancelOutcome.thrown (some netDownMsg))).progress = 42 ∧
    (cancelProcessing busyState (CancelOutcome.thrown (some netDownMsg))).error = some netDownMsg := by
  decide

/-- Claim C3, amended: for a cancel request with an active job, the
cancelled/idle shape (`isProcessing = false`, progress `0`, message cleared,
job and timer cleared) is forced only when the cancel network call resolves;
when it rejects, the `catch` block sets `error` and every other cell keeps
its value. -/
theorem cancelProcessing_outcome_split (s : ProcState) (m : Option String)
    (h : strTruthy (jobIdOf s) = true) :
    cancelProcessing s CancelOutcome.ok =
      { s with
        isProcessing := false
        progress := 0
        message := ""
        job := none
        pollingTimer := none } ∧
    (cancelProcessing s (CancelOutcome.thrown m)).isProcessing = s.isProcessing ∧
    (cancelProcessing s (CancelOutcome.thrown m)).progress = s.progress ∧
    (cancelProcessing s (CancelOutcome.thrown m)).message = s.message ∧
    (cancelProcessing s (CancelOutcome.thrown m)).job = s.job ∧
    (cancelProcessing s (CancelOutcome.thrown m)).pollingTimer = s.pollingTimer ∧
    (cancelProcessing s (CancelOutcome.thrown m)).error = some (Option.getD m cancelFailMsg) := by
  simp [cancelProcessing, h]

/-- Claim C3, witness for the amended theorem at the busy fixture state. -/
theorem cancelProcessing_outcome_split_witness :
    strTruthy (jobIdOf busyState) = true ∧
    (cancelProcessing busyState CancelOutcome.ok =
      { busyState with
        isProcessing := false
        progress := 0
        message := ""
        job := none
        pollingTimer := none } ∧
     (cancelProcessing busyState (CancelOutcome.thrown (some netDownMsg))).isProcessing = busyState.isProcessing ∧
     (cancelProcessing busyState (CancelOutcome.thrown (some netDownMsg))).progress = busyState.progress ∧
     (cancelProcessing busyState (CancelOutcome.thrown (some netDownMsg))).message = busyState.message ∧
     (cancelProcessing busyState (CancelOutcome.thrown (some netDownMsg))).job = busyState.job ∧
     (cancelProcessing busyState (CancelOutcome.thrown (some netDownMsg))).pollingTimer = busyState.pollingTimer ∧
     (cancelProcessing busyState (CancelOutcome.thrown (some netDownMsg))).error =
       some (Option.getD (some netDownMsg) cancelFailMsg)) :=
  ⟨by decide, cancelProcessing_outcome_split busyState (some netDownMsg) (by decide)⟩

/-- Claim C4: applying a snapshot with a terminal status (`completed` or
`failed`; the status union has no `cancelled` literal, so these are all the
terminal snapshot statuses) clears the polling interval handle and settles
processing, while `pending` and `processing` snapshots leave the timer and
`isProcessing` unchanged. -/
theorem updateJobStatus_stops_iff_terminal (s : ProcState) (j : ProcessingJob) :
    ((j.status = JobStatus.completed ∨ j.status = JobStatus.failed) →
      (updateJobStatus s j).pollingTimer = none ∧
      (updateJobStatus s j).isProcessing = false) ∧
    ((j.status = JobStatus.pending ∨ j.status = JobStatus.processing) →
      (updateJobStatus s j).pollingTimer = s.pollingTimer ∧
      (updateJobStatus s j).isProcessing = s.isProcessing) := by
  cases hj : j.status <;> simp [updateJobStatus, isTerminalStatus, hj]

/-- Claim C4, witness: a completed snapshot stops polling at the busy fixture
state, a processing snapshot does not. -/
theorem updateJobStatus_stops_iff_terminal_witness :
    ((updateJobStatus busyState completedJob).pollingTimer = none ∧
     (updateJobStatus busyState completedJob).isProcessing = false) ∧
    ((updateJobStatus busyState lateSnap).pollingTimer = busyState.pollingTimer ∧
     (updateJobStatus busyState lateSnap).isProcessing = busyState.isProcessing) :=
  ⟨(updateJobStatus_stops_iff_terminal busyState completedJob).1 (Or.inl rfl),
   (updateJobStatus_stops_iff_terminal busyState lateSnap).2 (Or.inr rfl)⟩

/-- Claim C5: `reset` from any state yields the idle shape — `isProcessing`
false, progress `0`, empty message, no job, no error, and no polling timer. -/
theorem reset_yields_idle (s : ProcState) :
    reset s = idleState ∧
    (reset s).isProcessing = false ∧
    (reset s).progress = 0 ∧
    (reset s).message = "" ∧
    (reset s).job = none ∧
    (reset s).error = none ∧
    (reset s).pollingTimer = none :=
  ⟨rfl, rfl, rfl, rfl, rfl, rfl, rfl⟩

/-- Claim C6: when the submit call fails (rejected call, unsuccessful
response, or missing job id) and no job was held, both starters surface a
non-null error, settle `isProcessing`, retain no job, and start no polling. -/
theorem submit_failure_returns_idle (s : ProcState) (o : SubmitOutcome)
    (hfail : submitRejected o = true) (hjob : s.job = none) :
    (((startTryOn s o).1.error).isSome = true ∧
     (startTryOn s o).1.isProcessing = false ∧
     (startTryOn s o).1.job = none ∧
     (startTryOn s o).2 = false) ∧
    (((startTryOff s o).1.error).isSome = true ∧
     (startTryOff s o).1.isProcessing = false ∧
     (startTryOff s o).1.job = none ∧
     (startTryOff s o).2 = false) := by
  cases o with
  | thrown m => simp [startTryOn, startTryOff, hjob]
  | resp r =>
      have hg : submitGuardFails r = true := by simpa [submitRejected] using hfail
      simp [startTryOn, startTryOff, hg, hjob]

/-- Claim C6, witness at the idle state and a failed submit response. -/
theorem submit_failure_returns_idle_witness :
    (submitRejected (SubmitOutcome.resp failRespA) = true ∧ idleState.job = none) ∧
    ((((startTryOn idleState (SubmitOutcome.resp failRespA)).1.error).isSome = true ∧
      (startTryOn idleState (SubmitOutcome.resp failRespA)).1.isProcessing = false ∧
      (startTryOn idleState (SubmitOutcome.resp failRespA)).1.job = none ∧
      (startTryOn idleState (SubmitOutcome.resp failRespA)).2 = false) ∧
     (((startTryOff idleState (SubmitOutcome.resp failRespA)).1.error).isSome = true ∧
      (startTryOff idleState (SubmitOutcome.resp failRespA)).1.isProcessing = false ∧
      (startTryOff idleState (SubmitOutcome.resp failRespA)).1.job = none ∧
      (startTryOff idleState (SubmitOutcome.resp failRespA)).2 = false)) :=
  ⟨⟨by decide, rfl⟩,
   submit_failure_returns_idle idleState (SubmitOutcome.resp failRespA) (by decide) rfl⟩

/-- Claim C7, counterexample: applying a 50-percent snapshot and then a
10-percent snapshot of the same non-terminal job makes the observable
progress decrease — monotonicity is not enforced by the code. -/
theorem progress_decreases_on_decreasing_snapshot :
    isTerminalStatus snapHigh.status = false ∧
    isTerminalStatus snapLow.status = false ∧
    (updateJobStatus idleState snapHigh).progress = 50 ∧
    (updateJobStatus (updateJobStatus idleState snapHigh) snapLow).progress = 10 ∧
    (updateJobStatus (updateJobStatus idleState snapHigh) snapLow).progress <
      (updateJobStatus idleState snapHigh).progress := by
  decide

/-- Claim C7, amended: the observable progress mirrors each snapshot
verbatim, so the observable trace is monotonically non-decreasing and within
`[0, 100]` exactly when the delivered snapshot sequence itself is. -/
theorem progress_monotone_of_monotone_snapshots (s : ProcState) (js : List ProcessingJob)
    (hmono : List.Chain' (fun a b => a.progress ≤ b.progress) js)
    (hrange : ∀ j ∈ js, 0 ≤ j.progress ∧ j.progress ≤ 100) :
    List.Chain' (fun a b : Int => a ≤ b) (progressTrace s js) ∧
    ∀ p ∈ progressTrace s js, 0 ≤ p ∧ p ≤ 100 := by
  rw [progressTrace_eq_map]
  refine ⟨(List.chain'_map (fun j : ProcessingJob => j.progress)).mpr hmono, ?_⟩
  intro p hp
  rcases List.mem_map.mp hp with ⟨j, hj, rfl⟩
  exact hrange j hj

/-- Claim C7, witness for the amended theorem on a monotone two-snapshot
sequence. -/
theorem progress_monotone_of_monotone_snapshots_witness :
    (List.Chain' (fun a b => a.progress ≤ b.progress) [snapLow, snapHigh] ∧
     ∀ j ∈ [snapLow, snapHigh], 0 ≤ j.progress ∧ j.progress ≤ 100) ∧
    (List.Chain' (fun a b : Int => a ≤ b) (progressTrace idleState [snapLow, snapHigh]) ∧
     ∀ p ∈ progressTrace idleState [snapLow, snapHigh], 0 ≤ p ∧ p ≤ 100) :=
  ⟨⟨by simp [List.chain'_cons, snapLow, snapHigh], by decide⟩,
   progress_monotone_of_monotone_snapshots idleState [snapLow, snapHigh]
     (by simp [List.chain'_cons, snapLow, snapHigh]) (by decide)⟩

/-- Claim C8: for a file whose MIME type does not start with `image/`,
`handleFile` is a no-op — the component state is unchanged and the
`onImageUpload` callback is never invoked. -/
theorem handleFile_non_image_noop (s : UploadCompState) (f : JsFile)
    (h : jsStartsWith f.type mimeImageSlash = false) :
    handleFile s f = (s, none) ∧
    (handleFile s f).1.uploadedImage = s.uploadedImage ∧
    (handleFile s f).2 = none := by
  simp [handleFile, h]

/-- Claim C8, witness at a PDF file. -/
theorem handleFile_non_image_noop_witness :
    jsStartsWith pdfFile.type mimeImageSlash = false ∧
    (handleFile emptyUploadComp pdfFile = (emptyUploadComp, none) ∧
     (handleFile emptyUploadComp pdfFile).1.uploadedImage = emptyUploadComp.uploadedImage ∧
     (handleFile emptyUploadComp pdfFile).2 = none) :=
  ⟨by decide, handleFile_non_image_noop emptyUploadComp pdfFile (by decide)⟩

/-- Claim C9: `uploadImage` always leaves `isUploading` false once it
completes, and on failed validation it sets an error while `image` and
`preview` keep their previous values. -/
theorem uploadImage_settles_isUploading (s : ImageUploadState) (f : JsFile)
    (v : ValidationResult) (p : PreviewOutcome) :
    (uploadImage s f v p).isUploading = false ∧
    (v.isValid = false →
      ((uploadImage s f v p).error).isSome = true ∧
      (uploadImage s f v p).image = s.image ∧
      (uploadImage s f v p).preview = s.preview) := by
  constructor
  · rfl
  · intro hv
    simp [uploadImage, hv]

/-- Claim C9, witness at a failed validation over a held previous image. -/
theorem uploadImage_settles_isUploading_witness :
    invalidValidation.isValid = false ∧
    (uploadImage heldUploadState pdfFile invalidValidation (PreviewOutcome.ok previewUrlA)).isUploading = false ∧
    (((uploadImage heldUploadState pdfFile invalidValidation (PreviewOutcome.ok previewUrlA)).error).isSome = true ∧
     (uploadImage heldUploadState pdfFile invalidValidation (PreviewOutcome.ok previewUrlA)).image = heldUploadState.image ∧
     (uploadImage heldUploadState pdfFile invalidValidation (PreviewOutcome.ok previewUrlA)).preview = heldUploadState.preview) :=
  ⟨rfl,
   (uploadImage_settles_isUploading heldUploadState pdfFile invalidValidation (PreviewOutcome.ok previewUrlA)).1,
   (uploadImage_settles_isUploading heldUploadState pdfFile invalidValidation (PreviewOutcome.ok previewUrlA)).2 rfl⟩

/-- Claim C10: over any run of `simulateProgress` ticks with nonnegative
random increments, the accumulated progress stays in `[0, 90]`, the clamped
message index always selects an element of the four-element message array
(the published message is never `undefined`), and the published progress
never exceeds 90. -/
theorem simulateProgress_tick_safe (rs : List Rat) (h : ∀ r ∈ rs, 0 ≤ r) :
    0 ≤ runTicks rs ∧ runTicks rs ≤ 90 ∧
    (publishedMessage (runTicks rs)).isSome = true ∧
    publishedProgress (runTicks rs) ≤ 90 := by
  unfold runTicks publishedProgress
  have hb := runTicks_bounds_aux rs 0 h (le_refl 0) (by norm_num)
  exact ⟨hb.1, hb.2, publishedMessage_isSome_of_nonneg _ hb.1,
    le_trans (min_le_left _ _) hb.2⟩

/-- Claim C10, witness on two concrete tick increments. -/
theorem simulateProgress_tick_safe_witness :
    (∀ r ∈ ticksA, (0:Rat) ≤ r) ∧
    (0 ≤ runTicks ticksA ∧ runTicks ticksA ≤ 90 ∧
     (publishedMessage (runTicks ticksA)).isSome = true ∧
     publishedProgress (runTicks ticksA) ≤ 90) :=
  ⟨by norm_num [ticksA], simulateProgress_tick_safe ticksA (by norm_num [ticksA])⟩

end Vizart
